import Mathlib

/-!
Verification of the wew cross-process bridging layer.

This file gives a shallow embedding of the C++ bridging layer of the
repository (browser instance controller, async thread bridge, cookie
bridge, resource stream handler adapter, and render-process message
transport) and proves or refutes the frozen claims about it.

Each controller method is translated into a pure Lean function on an
explicit state record.  Calls into the embedded engine and callbacks
into the host are made observable as an explicit list of emitted
effects; a guarded early return corresponds to an unchanged state and
an empty effect list.
-/

/-! ## Browser instance controller (src/cxx/webview.cpp)

The controller class keeps a running flag (`IMPLEMENT_RUNNING` declares
`bool _is_running = true;`), an optional browser reference `_browser`,
the view rectangle, the device scale factor, and the handler callback
table.  `CHECK_REFCOUNTING(result)` expands to
`if (!_is_running) return result;` and `CLOSE_RUNNING` to
`_is_running = false;`.
-/

/-- Host-visible lifecycle states (the WebViewState enum values that the
controller actually dispatches). -/
inductive WVState where
  | BEFORE_LOAD
  | LOADED
  | LOAD_ERROR
  | REQUEST_CLOSE
  | CLOSE
deriving DecidableEq

/-- A rectangle of integer coordinates (CefRect / the C Rect struct). -/
structure Rect where
  x : Int
  y : Int
  width : Int
  height : Int
deriving DecidableEq

/-- A mouse event payload (x, y, modifiers), as marshalled from the C
MouseEvent struct. -/
structure MouseEventRec where
  x : Int
  y : Int
  modifiers : Int
deriving DecidableEq

/-- Calls the controller makes into the engine through the held browser
reference (browser->GetHost()->...) or the engine-passed browser
argument. -/
inductive HostCall where
  | setFocus (enable : Bool)
  | wasResized
  | closeBrowser (force_close : Bool)
  | showDevTools
  | closeDevTools
  | imeCommitText (input : String)
  | imeSetComposition (input : String) (x y : Int)
  | sendMouseClick (e : MouseEventRec) (button : Int) (mouse_up : Bool) (click_count : Int)
  | sendMouseMove (e : MouseEventRec) (mouse_leave : Bool)
  | sendMouseWheel (e : MouseEventRec) (deltaX deltaY : Int)
  | sendKeyEvent (key : Int)
  | sendTouchEvent (touch : Int)
deriving DecidableEq

/-- Observable effects of one controller method call: host callback
invocations (the WebViewHandler function pointer table) and engine
calls. -/
inductive WVEvent where
  | stateChange (s : WVState)
  | titleChange (title : String)
  | fullscreenChange (fullscreen : Bool)
  | imeRect (r : Rect)
  | onFrame (buffer : Option Nat) (width height : Int)
  | onMessage (payload : String)
  | hostCall (c : HostCall)
  | loadURL (url : String)
  | sendProcessMessage (channel : String) (payload : String)
  | menuClear
deriving DecidableEq

/-- The mutable state of one IWebView instance: the `_is_running` flag,
the optional `_browser` reference (browser objects are identified by an
opaque Nat handle), the cached `_view_rect` width and height, the
device scale factor, the windowless-rendering setting, and whether the
resource request handler pointer is non-null (the constructor always
assigns it). -/
structure WebViewSt where
  is_running : Bool
  browser : Option Nat
  view_width : Int
  view_height : Int
  device_scale_factor : Int
  windowless_rendering_enabled : Bool
  request_handler_present : Bool
deriving DecidableEq

namespace IWebView

/-- CefClient getter: GetDragHandler. -/
def GetDragHandler (s : WebViewSt) : Option Unit :=
  if !s.is_running then none else some ()

/-- CefClient getter: GetDisplayHandler. -/
def GetDisplayHandler (s : WebViewSt) : Option Unit :=
  if !s.is_running then none else some ()

/-- CefClient getter: GetLifeSpanHandler. -/
def GetLifeSpanHandler (s : WebViewSt) : Option Unit :=
  if !s.is_running then none else some ()

/-- CefClient getter: GetLoadHandler. -/
def GetLoadHandler (s : WebViewSt) : Option Unit :=
  if !s.is_running then none else some ()

/-- CefClient getter: GetRenderHandler returns the controller only when
windowless rendering is enabled. -/
def GetRenderHandler (s : WebViewSt) : Option Unit :=
  if !s.is_running then none
  else if s.windowless_rendering_enabled then some () else none

/-- CefClient getter: GetRequestHandler returns null when the resource
request handler pointer is null. -/
def GetRequestHandler (s : WebViewSt) : Option Unit :=
  if !s.is_running then none
  else if !s.request_handler_present then none else some ()

/-- CefClient getter: GetContextMenuHandler. -/
def GetContextMenuHandler (s : WebViewSt) : Option Unit :=
  if !s.is_running then none else some ()

/-- OnProcessMessageReceived: after the guard and a browser presence
check, reads argument 0 of the message and forwards it to the host
on_message callback, returning true. -/
def OnProcessMessageReceived (s : WebViewSt) (payload : String) :
    (WebViewSt × List WVEvent) × Bool :=
  if !s.is_running then ((s, []), false)
  else
    match s.browser with
    | none => ((s, []), false)
    | some _ => ((s, [WVEvent.onMessage payload]), true)

/-- OnBeforeContextMenu: for selection or editable contexts the default
menu is kept, otherwise the model is cleared. -/
def OnBeforeContextMenu (s : WebViewSt) (selection_or_editable : Bool) :
    WebViewSt × List WVEvent :=
  if !s.is_running then (s, [])
  else if selection_or_editable then (s, [])
  else (s, [WVEvent.menuClear])

/-- OnLoadStart dispatches WEBVIEW_BEFORE_LOAD. -/
def OnLoadStart (s : WebViewSt) : WebViewSt × List WVEvent :=
  if !s.is_running then (s, [])
  else (s, [WVEvent.stateChange WVState.BEFORE_LOAD])

/-- OnLoadEnd dispatches WEBVIEW_LOADED and focuses the engine-passed
browser. -/
def OnLoadEnd (s : WebViewSt) : WebViewSt × List WVEvent :=
  if !s.is_running then (s, [])
  else (s, [WVEvent.stateChange WVState.LOADED, WVEvent.hostCall (HostCall.setFocus true)])

/-- OnLoadError dispatches WEBVIEW_LOAD_ERROR. -/
def OnLoadError (s : WebViewSt) : WebViewSt × List WVEvent :=
  if !s.is_running then (s, [])
  else (s, [WVEvent.stateChange WVState.LOAD_ERROR])

/-- OnAfterCreated: asks the engine to resize and then populates the
browser reference. -/
def OnAfterCreated (s : WebViewSt) (b : Nat) : WebViewSt × List WVEvent :=
  if !s.is_running then (s, [])
  else ({ s with browser := some b }, [WVEvent.hostCall HostCall.wasResized])

/-- DoClose: `CHECK_REFCOUNTING(true)` so a closed instance returns
true; a running instance dispatches WEBVIEW_REQUEST_CLOSE and returns
false, letting default close handling proceed. -/
def DoClose (s : WebViewSt) : (WebViewSt × List WVEvent) × Bool :=
  if !s.is_running then ((s, []), true)
  else ((s, [WVEvent.stateChange WVState.REQUEST_CLOSE]), false)

/-- OnBeforePopup: loads the popup target URL in the main frame instead
of opening a window, returning true. -/
def OnBeforePopup (s : WebViewSt) (target_url : String) :
    (WebViewSt × List WVEvent) × Bool :=
  if !s.is_running then ((s, []), false)
  else ((s, [WVEvent.loadURL target_url]), true)

/-- OnBeforeClose has NO running-flag guard in the source: it always
dispatches WEBVIEW_CLOSE to the host and then clears the browser
reference.  It never touches the running flag. -/
def OnBeforeClose (s : WebViewSt) : WebViewSt × List WVEvent :=
  ({ s with browser := none }, [WVEvent.stateChange WVState.CLOSE])

/-- OnTitleChange forwards the title string to the host. -/
def OnTitleChange (s : WebViewSt) (title : String) : WebViewSt × List WVEvent :=
  if !s.is_running then (s, [])
  else (s, [WVEvent.titleChange title])

/-- OnFullscreenModeChange forwards the flag to the host. -/
def OnFullscreenModeChange (s : WebViewSt) (fullscreen : Bool) :
    WebViewSt × List WVEvent :=
  if !s.is_running then (s, [])
  else (s, [WVEvent.fullscreenChange fullscreen])

/-- GetScreenInfo writes the device scale factor into the out struct
and returns true; the guarded early return is false with the out
struct untouched (modelled as none). -/
def GetScreenInfo (s : WebViewSt) : (WebViewSt × List WVEvent) × (Bool × Option Int) :=
  if !s.is_running then ((s, []), (false, none))
  else ((s, []), (true, some s.device_scale_factor))

/-- OnImeCompositionRangeChanged reports the first character bound
rectangle to the host, when there is one. -/
def OnImeCompositionRangeChanged (s : WebViewSt) (character_bounds : List Rect) :
    WebViewSt × List WVEvent :=
  if !s.is_running then (s, [])
  else
    match character_bounds with
    | [] => (s, [])
    | first :: _ => (s, [WVEvent.imeRect first])

/-- GetViewRect writes the cached view width and height into the out
rectangle; the guarded early return leaves it untouched (none). -/
def GetViewRect (s : WebViewSt) : (WebViewSt × List WVEvent) × Option (Int × Int) :=
  if !s.is_running then ((s, []), none)
  else ((s, []), some (s.view_width, s.view_height))

/-- OnPaint: after the guard, a null pixel buffer returns immediately;
otherwise the buffer is forwarded to the host on_frame callback. -/
def OnPaint (s : WebViewSt) (buffer : Option Nat) (width height : Int) :
    WebViewSt × List WVEvent :=
  if !s.is_running then (s, [])
  else
    match buffer with
    | none => (s, [])
    | some _ => (s, [WVEvent.onFrame buffer width height])

/-- CefRequestHandler getter: GetResourceRequestHandler. -/
def GetResourceRequestHandler (s : WebViewSt) : Option Unit :=
  if !s.is_running then none else some ()

/-- SetDevToolsOpenState opens or closes the devtools window through
the browser host. -/
def SetDevToolsOpenState (s : WebViewSt) (is_open : Bool) : WebViewSt × List WVEvent :=
  if !s.is_running then (s, [])
  else
    match s.browser with
    | none => (s, [])
    | some _ =>
        (s, [WVEvent.hostCall (if is_open then HostCall.showDevTools else HostCall.closeDevTools)])

/-- GetWindowHandle returns the engine window handle of the held
browser, null when closed or absent (the handle of browser b is
abstracted as b itself). -/
def GetWindowHandle (s : WebViewSt) : (WebViewSt × List WVEvent) × Option Nat :=
  if !s.is_running then ((s, []), none)
  else ((s, []), s.browser)

/-- SendMessage wraps the payload in a MESSAGE_TRANSPORT process
message and sends it to the renderer through the main frame. -/
def SendMessage (s : WebViewSt) (message : String) : WebViewSt × List WVEvent :=
  if !s.is_running then (s, [])
  else
    match s.browser with
    | none => (s, [])
    | some _ => (s, [WVEvent.sendProcessMessage "MESSAGE_TRANSPORT" message])

/-- Close: guarded; with a browser present it asks the engine to close
the browser, clears the reference and runs CLOSE_RUNNING
(`_is_running = false`). -/
def Close (s : WebViewSt) : WebViewSt × List WVEvent :=
  if !s.is_running then (s, [])
  else
    match s.browser with
    | none => (s, [])
    | some _ =>
        ({ s with browser := none, is_running := false },
          [WVEvent.hostCall (HostCall.closeBrowser true)])

/-- OnIMEComposition commits IME text through the browser host. -/
def OnIMEComposition (s : WebViewSt) (input : String) : WebViewSt × List WVEvent :=
  if !s.is_running then (s, [])
  else
    match s.browser with
    | none => (s, [])
    | some _ => (s, [WVEvent.hostCall (HostCall.imeCommitText input)])

/-- OnIMESetComposition sets the in-progress IME composition. -/
def OnIMESetComposition (s : WebViewSt) (input : String) (x y : Int) :
    WebViewSt × List WVEvent :=
  if !s.is_running then (s, [])
  else
    match s.browser with
    | none => (s, [])
    | some _ => (s, [WVEvent.hostCall (HostCall.imeSetComposition input x y)])

/-- OnMouseClick injects a click; the source sends `!pressed` as the
mouse-up flag with click count 1. -/
def OnMouseClick (s : WebViewSt) (e : MouseEventRec) (button : Int) (pressed : Bool) :
    WebViewSt × List WVEvent :=
  if !s.is_running then (s, [])
  else
    match s.browser with
    | none => (s, [])
    | some _ => (s, [WVEvent.hostCall (HostCall.sendMouseClick e button (!pressed) 1)])

/-- OnMouseMove injects a move event (mouse_leave false). -/
def OnMouseMove (s : WebViewSt) (e : MouseEventRec) : WebViewSt × List WVEvent :=
  if !s.is_running then (s, [])
  else
    match s.browser with
    | none => (s, [])
    | some _ => (s, [WVEvent.hostCall (HostCall.sendMouseMove e false)])

/-- OnMouseWheel injects a wheel event. -/
def OnMouseWheel (s : WebViewSt) (e : MouseEventRec) (x y : Int) :
    WebViewSt × List WVEvent :=
  if !s.is_running then (s, [])
  else
    match s.browser with
    | none => (s, [])
    | some _ => (s, [WVEvent.hostCall (HostCall.sendMouseWheel e x y)])

/-- OnKeyboard injects a key event (the marshalled event is abstracted
as an opaque Nat). -/
def OnKeyboard (s : WebViewSt) (key : Nat) : WebViewSt × List WVEvent :=
  if !s.is_running then (s, [])
  else
    match s.browser with
    | none => (s, [])
    | some _ => (s, [WVEvent.hostCall (HostCall.sendKeyEvent (Int.ofNat key))])

/-- OnTouch injects a touch event (abstracted as an opaque Nat). -/
def OnTouch (s : WebViewSt) (touch : Nat) : WebViewSt × List WVEvent :=
  if !s.is_running then (s, [])
  else
    match s.browser with
    | none => (s, [])
    | some _ => (s, [WVEvent.hostCall (HostCall.sendTouchEvent (Int.ofNat touch))])

/-- Resize updates the cached view rectangle and asks the engine to
re-query it. -/
def Resize (s : WebViewSt) (width height : Int) : WebViewSt × List WVEvent :=
  if !s.is_running then (s, [])
  else
    match s.browser with
    | none => (s, [])
    | some _ =>
        ({ s with view_width := width, view_height := height },
          [WVEvent.hostCall HostCall.wasResized])

/-- SetFocus forwards the focus flag to the browser host. -/
def SetFocus (s : WebViewSt) (enable : Bool) : WebViewSt × List WVEvent :=
  if !s.is_running then (s, [])
  else
    match s.browser with
    | none => (s, [])
    | some _ => (s, [WVEvent.hostCall (HostCall.setFocus enable)])

end IWebView

/-- Enumeration of the controller methods that mutate or dispatch (the
state-and-effect part; pure getters return no effects and never touch
state). -/
inductive WVMethod where
  | onProcessMessageReceived (payload : String)
  | onBeforeContextMenu (selection_or_editable : Bool)
  | onLoadStart
  | onLoadEnd
  | onLoadError
  | onAfterCreated (b : Nat)
  | doClose
  | onBeforePopup (target_url : String)
  | onBeforeClose
  | onTitleChange (title : String)
  | onFullscreenModeChange (fullscreen : Bool)
  | onImeCompositionRangeChanged (character_bounds : List Rect)
  | onPaint (buffer : Option Nat) (width height : Int)
  | setDevToolsOpenState (is_open : Bool)
  | sendMessageCall (message : String)
  | closeCall
  | onIMEComposition (input : String)
  | onIMESetComposition (input : String) (x y : Int)
  | onMouseClick (e : MouseEventRec) (button : Int) (pressed : Bool)
  | onMouseMove (e : MouseEventRec)
  | onMouseWheel (e : MouseEventRec) (x y : Int)
  | onKeyboard (key : Nat)
  | onTouch (touch : Nat)
  | resizeCall (width height : Int)
  | setFocusCall (enable : Bool)

/-- Dispatcher projecting every controller method to its state update
and emitted effects. -/
def IWebView.dispatch (s : WebViewSt) : WVMethod → WebViewSt × List WVEvent
  | WVMethod.onProcessMessageReceived p => (IWebView.OnProcessMessageReceived s p).fst
  | WVMethod.onBeforeContextMenu f => IWebView.OnBeforeContextMenu s f
  | WVMethod.onLoadStart => IWebView.OnLoadStart s
  | WVMethod.onLoadEnd => IWebView.OnLoadEnd s
  | WVMethod.onLoadError => IWebView.OnLoadError s
  | WVMethod.onAfterCreated b => IWebView.OnAfterCreated s b
  | WVMethod.doClose => (IWebView.DoClose s).fst
  | WVMethod.onBeforePopup u => (IWebView.OnBeforePopup s u).fst
  | WVMethod.onBeforeClose => IWebView.OnBeforeClose s
  | WVMethod.onTitleChange t => IWebView.OnTitleChange s t
  | WVMethod.onFullscreenModeChange f => IWebView.OnFullscreenModeChange s f
  | WVMethod.onImeCompositionRangeChanged bs => IWebView.OnImeCompositionRangeChanged s bs
  | WVMethod.onPaint b w h => IWebView.OnPaint s b w h
  | WVMethod.setDevToolsOpenState b => IWebView.SetDevToolsOpenState s b
  | WVMethod.sendMessageCall m => IWebView.SendMessage s m
  | WVMethod.closeCall => IWebView.Close s
  | WVMethod.onIMEComposition i => IWebView.OnIMEComposition s i
  | WVMethod.onIMESetComposition i x y => IWebView.OnIMESetComposition s i x y
  | WVMethod.onMouseClick e b p => IWebView.OnMouseClick s e b p
  | WVMethod.onMouseMove e => IWebView.OnMouseMove s e
  | WVMethod.onMouseWheel e x y => IWebView.OnMouseWheel s e x y
  | WVMethod.onKeyboard k => IWebView.OnKeyboard s k
  | WVMethod.onTouch t => IWebView.OnTouch s t
  | WVMethod.resizeCall w h => IWebView.Resize s w h
  | WVMethod.setFocusCall e => IWebView.SetFocus s e

/-- A sample instance state after the running flag was dropped. -/
def closedSample : WebViewSt :=
  { is_running := false, browser := none, view_width := 800, view_height := 600,
    device_scale_factor := 1, windowless_rendering_enabled := true,
    request_handler_present := true }

/-- A sample live instance state with a browser reference present. -/
def runningSample : WebViewSt :=
  { is_running := true, browser := some 1, view_width := 800, view_height := 600,
    device_scale_factor := 1, windowless_rendering_enabled := true,
    request_handler_present := true }

/-- Helper: every controller method other than Close leaves the running
flag untouched (only `CLOSE_RUNNING` inside Close flips it). -/
theorem dispatch_preserves_running (s : WebViewSt) (m : WVMethod)
    (hm : m ≠ WVMethod.closeCall) :
    (IWebView.dispatch s m).fst.is_running = s.is_running := by
  cases m <;>
    first
      | exact absurd rfl hm
      | (simp only [IWebView.dispatch, IWebView.OnProcessMessageReceived,
          IWebView.OnBeforeContextMenu, IWebView.OnLoadStart, IWebView.OnLoadEnd,
          IWebView.OnLoadError, IWebView.OnAfterCreated, IWebView.DoClose,
          IWebView.OnBeforePopup, IWebView.OnBeforeClose, IWebView.OnTitleChange,
          IWebView.OnFullscreenModeChange, IWebView.OnImeCompositionRangeChanged,
          IWebView.OnPaint, IWebView.SetDevToolsOpenState, IWebView.SendMessage,
          IWebView.OnIMEComposition, IWebView.OnIMESetComposition,
          IWebView.OnMouseClick, IWebView.OnMouseMove, IWebView.OnMouseWheel,
          IWebView.OnKeyboard, IWebView.OnTouch, IWebView.Resize, IWebView.SetFocus]
         <;> (repeat' split) <;> simp)

/-- C1: amended. Every guarded controller method (all engine- or
host-invocable methods except OnBeforeClose) checks the running flag
first and, when it is false, performs no state change, emits no host or
engine call, and returns its early-return default; the default is none
for the handler getters and window-handle query, false for
OnProcessMessageReceived, OnBeforePopup and GetScreenInfo, but TRUE for
DoClose; a second Close on an already-closed instance is a no-op.
OnBeforeClose alone is unguarded. -/
theorem guarded_methods_safe_defaults (s : WebViewSt) (h : s.is_running = false) :
    (∀ m : WVMethod, m ≠ WVMethod.onBeforeClose → IWebView.dispatch s m = (s, [])) ∧
    IWebView.GetDragHandler s = none ∧
    IWebView.GetDisplayHandler s = none ∧
    IWebView.GetLifeSpanHandler s = none ∧
    IWebView.GetLoadHandler s = none ∧
    IWebView.GetRenderHandler s = none ∧
    IWebView.GetRequestHandler s = none ∧
    IWebView.GetContextMenuHandler s = none ∧
    IWebView.GetResourceRequestHandler s = none ∧
    (IWebView.DoClose s).snd = true ∧
    (∀ p, (IWebView.OnProcessMessageReceived s p).snd = false) ∧
    (∀ u, (IWebView.OnBeforePopup s u).snd = false) ∧
    (IWebView.GetScreenInfo s).snd = (false, none) ∧
    (IWebView.GetViewRect s).snd = none ∧
    (IWebView.GetWindowHandle s).snd = none ∧
    (∀ s2 : WebViewSt, IWebView.Close (IWebView.Close s2).fst = ((IWebView.Close s2).fst, [])) := by
  refine ⟨?_, ?_, ?_, ?_, ?_, ?_, ?_, ?_, ?_, ?_, ?_, ?_, ?_, ?_, ?_, ?_⟩
  · intro m hm
    cases m <;>
      first
        | exact absurd rfl hm
        | (simp [IWebView.dispatch, IWebView.OnProcessMessageReceived,
            IWebView.OnBeforeContextMenu, IWebView.OnLoadStart, IWebView.OnLoadEnd,
            IWebView.OnLoadError, IWebView.OnAfterCreated, IWebView.DoClose,
            IWebView.OnBeforePopup, IWebView.OnTitleChange,
            IWebView.OnFullscreenModeChange, IWebView.OnImeCompositionRangeChanged,
            IWebView.OnPaint, IWebView.SetDevToolsOpenState, IWebView.SendMessage,
            IWebView.Close, IWebView.OnIMEComposition, IWebView.OnIMESetComposition,
            IWebView.OnMouseClick, IWebView.OnMouseMove, IWebView.OnMouseWheel,
            IWebView.OnKeyboard, IWebView.OnTouch, IWebView.Resize, IWebView.SetFocus, h])
  · simp [IWebView.GetDragHandler, h]
  · simp [IWebView.GetDisplayHandler, h]
  · simp [IWebView.GetLifeSpanHandler, h]
  · simp [IWebView.GetLoadHandler, h]
  · simp [IWebView.GetRenderHandler, h]
  · simp [IWebView.GetRequestHandler, h]
  · simp [IWebView.GetContextMenuHandler, h]
  · simp [IWebView.GetResourceRequestHandler, h]
  · simp [IWebView.DoClose, h]
  · intro p; simp [IWebView.OnProcessMessageReceived, h]
  · intro u; simp [IWebView.OnBeforePopup, h]
  · simp [IWebView.GetScreenInfo, h]
  · simp [IWebView.GetViewRect, h]
  · simp [IWebView.GetWindowHandle, h]
  · intro s2
    by_cases hr : s2.is_running
    · cases hb : s2.browser with
      | none => simp [IWebView.Close, hr, hb]
      | some b => simp [IWebView.Close, hr, hb]
    · simp [IWebView.Close, hr]

/-- C1: witness for the amended theorem at a concrete closed state. -/
theorem guarded_methods_safe_defaults_witness :
    closedSample.is_running = false ∧
    IWebView.dispatch closedSample WVMethod.onLoadStart = (closedSample, []) :=
  ⟨rfl, (guarded_methods_safe_defaults closedSample rfl).1 WVMethod.onLoadStart
    (by intro hc; exact WVMethod.noConfusion hc)⟩

/-- C1: counterexample to the claim as stated.  On a concrete instance
whose running flag is false, OnBeforeClose (an engine-invoked teardown
dispatch) still invokes the host state-change callback instead of
returning as a no-op, and DoClose returns true, not false; hence not
every engine-invocable method returns a null/false/no-op default. -/
theorem lifecycle_guard_counterexample :
    ¬ (∀ m : WVMethod, IWebView.dispatch closedSample m = (closedSample, [])) ∧
    (IWebView.OnBeforeClose closedSample).snd = [WVEvent.stateChange WVState.CLOSE] ∧
    (IWebView.DoClose closedSample).snd = true := by
  refine ⟨?_, rfl, rfl⟩
  intro hall
  have h1 := hall WVMethod.onBeforeClose
  simp [IWebView.dispatch, IWebView.OnBeforeClose] at h1

/-- C2: amended. On a running instance with a browser present, DoClose
only invokes the host state-change callback with the request-close
state and returns false; OnBeforeClose dispatches the close state and
clears the browser reference but never touches the running flag; the
running flag is flipped to false only inside Close, which also clears
the browser reference itself. -/
theorem close_two_phase (s : WebViewSt) (b : Nat)
    (hrun : s.is_running = true) (hb : s.browser = some b) :
    IWebView.DoClose s = ((s, [WVEvent.stateChange WVState.REQUEST_CLOSE]), false) ∧
    IWebView.OnBeforeClose s = ({ s with browser := none }, [WVEvent.stateChange WVState.CLOSE]) ∧
    (IWebView.OnBeforeClose s).fst.is_running = s.is_running ∧
    IWebView.Close s = ({ s with browser := none, is_running := false },
      [WVEvent.hostCall (HostCall.closeBrowser true)]) ∧
    (∀ s2 m, m ≠ WVMethod.closeCall → (IWebView.dispatch s2 m).fst.is_running = s2.is_running) := by
  refine ⟨?_, ?_, ?_, ?_, ?_⟩
  · simp [IWebView.DoClose, hrun]
  · simp [IWebView.OnBeforeClose]
  · simp [IWebView.OnBeforeClose]
  · simp [IWebView.Close, hrun, hb]
  · intro s2 m hm; exact dispatch_preserves_running s2 m hm

/-- C2: witness for the amended theorem at a concrete running state. -/
theorem close_two_phase_witness :
    runningSample.is_running = true ∧
    IWebView.Close runningSample =
      ({ runningSample with browser := none, is_running := false },
        [WVEvent.hostCall (HostCall.closeBrowser true)]) :=
  ⟨rfl, (close_two_phase runningSample 1 rfl rfl).2.2.2.1⟩

/-- C2: counterexample to the claim as stated.  On a concrete running
instance, Close itself clears the browser reference and flips the
running flag to false, while OnBeforeClose leaves the running flag
true; thus OnBeforeClose is not the only point at which the browser
reference is cleared and the flag flipped. -/
theorem close_two_phase_counterexample :
    (IWebView.Close runningSample).fst.is_running = false ∧
    (IWebView.Close runningSample).fst.browser = none ∧
    (IWebView.OnBeforeClose runningSample).fst.is_running = true := by
  refine ⟨?_, ?_, ?_⟩ <;> rfl

/-! ## Async thread bridge and cookie bridge (src/cxx/util.cpp)

`AsyncResult<T>` is a mutex/condition-variable result box: `SetResult`
stores a value and marks it ready; `WaitForResult(timeout_ms = 5000)`
blocks until the box is ready or the timeout elapses and then returns
the stored value, or `T{}` (the type default, false for bool) on
timeout.  Cookie operations run inline when the caller is already on
the engine IO thread (`CefCurrentlyOn(TID_IO)`), and otherwise post a
`CookieTask` closure to that thread with `CefPostTask`; the posted
closure executes the same store call and feeds the box, while the
caller blocks on `WaitForResult()`.  Timing is modelled by the instant
`producedAtMs` (milliseconds after the wait started) at which the
posted closure calls SetResult; the waiting caller observes the box
ready exactly when `producedAtMs` is within the timeout. -/

/-- Thread-safe result holder: stored value plus ready flag. -/
structure AsyncResult (T : Type) where
  result : T
  ready : Bool
deriving DecidableEq

/-- A freshly constructed result box: default value, not ready. -/
def AsyncResult.initialBox (T : Type) [Inhabited T] : AsyncResult T :=
  { result := default, ready := false }

/-- SetResult stores the value and marks the box ready. -/
def AsyncResult.SetResult {T : Type} (_box : AsyncResult T) (value : T) : AsyncResult T :=
  { result := value, ready := true }

/-- WaitForResult as observed at wake-up time: the stored value when
ready, the type default on timeout. -/
def AsyncResult.WaitForResult {T : Type} [Inhabited T] (box : AsyncResult T) : T :=
  if box.ready then box.result else default

/-- The default wait bound of `WaitForResult`. -/
def defaultTimeoutMs : Nat := 5000

/-- The box state the blocked caller observes when its wait ends: if
the producer ran SetResult within the timeout the box is ready,
otherwise the caller wakes on timeout seeing the initial box. -/
def AsyncResult.observedBox (T : Type) [Inhabited T]
    (producedAtMs timeoutMs : Nat) (value : T) : AsyncResult T :=
  if producedAtMs ≤ timeoutMs then (AsyncResult.initialBox T).SetResult value
  else AsyncResult.initialBox T

/-- The off-IO-thread path shared by the boolean cookie operations:
post the closure, which executes against the store on the IO thread
and feeds the result box, while the caller blocks on
`WaitForResult()` with the default timeout.  The closure is never
cancelled: the returned store always reflects its execution. -/
def bridgedBoolCall {S : Type} (body : S → Bool × S) (store : S)
    (producedAtMs : Nat) : Bool × S :=
  let run := body store
  ((AsyncResult.observedBox Bool producedAtMs defaultTimeoutMs run.fst).WaitForResult,
    run.snd)

/-- The `CefCookie` record handed to the engine store: the converted
strings, flags and enum casts (time fields are left at their default
zero, the source skips time conversion). -/
structure CefCookieRec where
  name : String
  value : String
  domain : String
  path : String
  secure : Bool
  httponly : Bool
  has_expires : Bool
  expires : Int
  creation : Int
  last_access : Int
  same_site : Int
  priority : Int
deriving DecidableEq

/-- The engine cookie store interface used by the bridge
(`CefCookieManager`), abstracted over the store state `S`. -/
structure CookieEngine (S : Type) where
  setCookie : S → String → CefCookieRec → Bool × S
  deleteCookies : S → String → String → Bool × S
  flushStore : S → Bool × S

/-- The C `Cookie` argument struct: four string pointers (nullable),
three flags, three times, same-site and priority. -/
structure CookieArg where
  name : Option String
  value : Option String
  domain : Option String
  path : Option String
  secure : Bool
  httponly : Bool
  has_expires : Bool
  expires : Int
  creation : Int
  last_access : Int
  same_site : Int
  priority : Int
deriving DecidableEq

namespace ICookieManager

/-- Conversion of a non-null cookie argument (with already-checked
non-null name and value) into the CefCookie record, as performed inline
in SetCookie: FromASCII on name/value, domain/path only when non-null,
flag copies, time conversion skipped (fields stay zero), enum casts. -/
def convertCookie (nm vl : String) (c : CookieArg) : CefCookieRec :=
  { name := nm, value := vl,
    domain := c.domain.getD "", path := c.path.getD "",
    secure := c.secure, httponly := c.httponly, has_expires := c.has_expires,
    expires := 0, creation := 0, last_access := 0,
    same_site := c.same_site, priority := c.priority }

/-- SetCookie: rejects null manager/url/cookie/name/value with false,
converts the cookie, then either runs the store call inline (caller on
the IO thread) or bridges it with a posted task plus a blocking wait. -/
def SetCookie {S : Type} (E : CookieEngine S) (mgrPresent : Bool) (store : S)
    (onIOThread : Bool) (producedAtMs : Nat)
    (url : Option String) (cookie : Option CookieArg) : Bool × S :=
  if !mgrPresent then (false, store)
  else
    match url, cookie with
    | some u, some c =>
      match c.name, c.value with
      | some nm, some vl =>
        let cef_cookie := convertCookie nm vl c
        if onIOThread then E.setCookie store u cef_cookie
        else bridgedBoolCall (fun st => E.setCookie st u cef_cookie) store producedAtMs
      | _, _ => (false, store)
    | _, _ => (false, store)

/-- DeleteCookies: null url or name are allowed and become empty
strings; the store call is run inline on the IO thread or bridged. -/
def DeleteCookies {S : Type} (E : CookieEngine S) (mgrPresent : Bool) (store : S)
    (onIOThread : Bool) (producedAtMs : Nat)
    (url cookie_name : Option String) : Bool × S :=
  if !mgrPresent then (false, store)
  else
    let cef_url := url.getD ""
    let cef_name := cookie_name.getD ""
    if onIOThread then E.deleteCookies store cef_url cef_name
    else bridgedBoolCall (fun st => E.deleteCookies st cef_url cef_name) store producedAtMs

/-- FlushStore: run inline on the IO thread or bridged. -/
def FlushStore {S : Type} (E : CookieEngine S) (mgrPresent : Bool) (store : S)
    (onIOThread : Bool) (producedAtMs : Nat) : Bool × S :=
  if !mgrPresent then (false, store)
  else
    if onIOThread then E.flushStore store
    else bridgedBoolCall (fun st => E.flushStore st) store producedAtMs

end ICookieManager

/-- A visit request handed to the engine store (visitor identified by
an opaque Nat handle to the wrapping ICookieVisitor). -/
inductive VisitCall where
  | all (visitor : Nat)
  | url (u : String) (includeHttpOnly : Bool) (visitor : Nat)
deriving DecidableEq

/-- VisitAllCookies: guard on manager/visitor, then the visit call is
either executed immediately (IO thread) or enqueued as a posted task;
the pair is (executed now, still queued). -/
def ICookieManager.VisitAllCookies (mgrPresent : Bool) (visitor : Option Nat)
    (onIOThread : Bool) : List VisitCall × List VisitCall :=
  if !mgrPresent then ([], [])
  else
    match visitor with
    | none => ([], [])
    | some v => if onIOThread then ([VisitCall.all v], []) else ([], [VisitCall.all v])

/-- VisitUrlCookies: guard on manager/url/visitor, then dispatch as for
VisitAllCookies. -/
def ICookieManager.VisitUrlCookies (mgrPresent : Bool) (url : Option String)
    (includeHttpOnly : Bool) (visitor : Option Nat) (onIOThread : Bool) :
    List VisitCall × List VisitCall :=
  if !mgrPresent then ([], [])
  else
    match url, visitor with
    | some u, some v =>
        if onIOThread then ([VisitCall.url u includeHttpOnly v], [])
        else ([], [VisitCall.url u includeHttpOnly v])
    | _, _ => ([], [])

/-- All visit calls a dispatch eventually executes: those run inline
plus those executed when the engine drains the posted-task queue. -/
def immediateAndQueued (p : List VisitCall × List VisitCall) : List VisitCall :=
  p.fst ++ p.snd

/-- The C `Cookie` record handed to the host visitor callback (all
strings owned and non-null by construction). -/
structure CookieRecord where
  name : String
  value : String
  domain : String
  path : String
  secure : Bool
  httponly : Bool
  has_expires : Bool
  expires : Int
  creation : Int
  last_access : Int
  same_site : Int
  priority : Int
deriving DecidableEq

/-- The record ICookieVisitor::Visit builds from the engine cookie:
strings converted, flags copied, and the three time fields hard-set to
zero (the source comments time conversion out for compatibility). -/
def ICookieVisitor.visitRecord (c : CefCookieRec) : CookieRecord :=
  { name := c.name, value := c.value, domain := c.domain, path := c.path,
    secure := c.secure, httponly := c.httponly, has_expires := c.has_expires,
    expires := 0, creation := 0, last_access := 0,
    same_site := c.same_site, priority := c.priority }

/-- ICookieVisitor::Visit: builds the record, invokes the host visit
callback with it (the callback returns the continue flag and writes the
delete flag through an out-parameter, modelled as the second component)
and propagates both. -/
def ICookieVisitor.Visit (visitFn : CookieRecord → Int → Int → Bool × Bool)
    (cef_cookie : CefCookieRec) (count total : Int) : Bool × Bool :=
  let record := ICookieVisitor.visitRecord cef_cookie
  let r := visitFn record count total
  (r.fst, r.snd)

/-- A concrete test engine over a Nat-counter store, used by witnesses. -/
def natEngine : CookieEngine Nat :=
  { setCookie := fun s _ _ => (true, s + 1),
    deleteCookies := fun s _ _ => (true, s + 10),
    flushStore := fun s => (true, s + 100) }

/-- A concrete well-formed cookie argument, used by witnesses. -/
def sampleCookieArg : CookieArg :=
  { name := some "a", value := some "b", domain := none, path := none,
    secure := false, httponly := false, has_expires := false,
    expires := 0, creation := 0, last_access := 0, same_site := 0, priority := 0 }

/-- C3: for every blocking thread-bridged boolean cookie operation
called off the IO thread, when the posted closure produces its result
only after the default timeout bound (5000 ms), the call returns false
(the bool default) instead of blocking; the late result is discarded
(false is returned even though the store call may have succeeded) while
the posted closure itself still executes, so the final store is the one
produced by the store call. -/
theorem bridged_timeout_returns_default {S : Type} (E : CookieEngine S) (store : S)
    (producedAtMs : Nat) (u nm vl : String) (c : CookieArg)
    (url2 name2 : Option String)
    (hn : c.name = some nm) (hv : c.value = some vl)
    (ht : defaultTimeoutMs < producedAtMs) :
    defaultTimeoutMs = 5000 ∧
    ICookieManager.SetCookie E true store false producedAtMs (some u) (some c) =
      (false, (E.setCookie store u (ICookieManager.convertCookie nm vl c)).snd) ∧
    ICookieManager.DeleteCookies E true store false producedAtMs url2 name2 =
      (false, (E.deleteCookies store (url2.getD "") (name2.getD "")).snd) ∧
    ICookieManager.FlushStore E true store false producedAtMs =
      (false, (E.flushStore store).snd) := by
  have hnle : ¬ producedAtMs ≤ defaultTimeoutMs := Nat.not_le.mpr ht
  refine ⟨rfl, ?_, ?_, ?_⟩
  · simp [ICookieManager.SetCookie, hn, hv, bridgedBoolCall, AsyncResult.observedBox,
      AsyncResult.WaitForResult, AsyncResult.initialBox, AsyncResult.SetResult, hnle]
  · simp [ICookieManager.DeleteCookies, bridgedBoolCall, AsyncResult.observedBox,
      AsyncResult.WaitForResult, AsyncResult.initialBox, AsyncResult.SetResult, hnle]
  · simp [ICookieManager.FlushStore, bridgedBoolCall, AsyncResult.observedBox,
      AsyncResult.WaitForResult, AsyncResult.initialBox, AsyncResult.SetResult, hnle]

/-- C3: witness at a concrete engine with a result produced at 5001 ms:
the bridged calls return false yet the store mutations happened. -/
theorem bridged_timeout_returns_default_witness :
    ICookieManager.SetCookie natEngine true 0 false 5001 (some "http://x.test/") (some sampleCookieArg) =
      (false, 1) ∧
    ICookieManager.FlushStore natEngine true 0 false 5001 = (false, 100) := by
  have h := bridged_timeout_returns_default natEngine 0 5001 "http://x.test/" "a" "b"
    sampleCookieArg none none rfl rfl (by decide)
  exact ⟨h.2.1, h.2.2.2⟩

/-- C4: cross-thread transparency.  Every cookie operation dispatches
on whether the caller is already on the engine IO thread; when the
bridged wait does not time out, the inline path and the bridged path
return the same result and leave the store in the same state, and the
visit operations execute the same store visit either way (inline now,
or from the drained task queue). -/
theorem cookie_thread_transparency {S : Type} (E : CookieEngine S) (mgrPresent : Bool)
    (store : S) (producedAtMs : Nat) (url : Option String) (cookie : Option CookieArg)
    (name2 : Option String) (includeHttpOnly : Bool) (visitor : Option Nat)
    (ht : producedAtMs ≤ defaultTimeoutMs) :
    ICookieManager.SetCookie E mgrPresent store true producedAtMs url cookie =
      ICookieManager.SetCookie E mgrPresent store false producedAtMs url cookie ∧
    ICookieManager.DeleteCookies E mgrPresent store true producedAtMs url name2 =
      ICookieManager.DeleteCookies E mgrPresent store false producedAtMs url name2 ∧
    ICookieManager.FlushStore E mgrPresent store true producedAtMs =
      ICookieManager.FlushStore E mgrPresent store false producedAtMs ∧
    immediateAndQueued (ICookieManager.VisitAllCookies mgrPresent visitor true) =
      immediateAndQueued (ICookieManager.VisitAllCookies mgrPresent visitor false) ∧
    immediateAndQueued
        (ICookieManager.VisitUrlCookies mgrPresent url includeHttpOnly visitor true) =
      immediateAndQueued
        (ICookieManager.VisitUrlCookies mgrPresent url includeHttpOnly visitor false) := by
  refine ⟨?_, ?_, ?_, ?_, ?_⟩
  · cases url <;> cases cookie <;>
      simp [ICookieManager.SetCookie, bridgedBoolCall, AsyncResult.observedBox,
        AsyncResult.WaitForResult, AsyncResult.initialBox, AsyncResult.SetResult, ht]
  · simp [ICookieManager.DeleteCookies, bridgedBoolCall, AsyncResult.observedBox,
      AsyncResult.WaitForResult, AsyncResult.initialBox, AsyncResult.SetResult, ht]
  · simp [ICookieManager.FlushStore, bridgedBoolCall, AsyncResult.observedBox,
      AsyncResult.WaitForResult, AsyncResult.initialBox, AsyncResult.SetResult, ht]
  · cases visitor <;> cases mgrPresent <;>
      simp [ICookieManager.VisitAllCookies, immediateAndQueued]
  · cases url <;> cases visitor <;> cases mgrPresent <;>
      simp [ICookieManager.VisitUrlCookies, immediateAndQueued]

/-- C4: witness at the concrete engine with an in-time result. -/
theorem cookie_thread_transparency_witness :
    ICookieManager.SetCookie natEngine true 0 true 3 (some "http://x.test/") (some sampleCookieArg) =
      ICookieManager.SetCookie natEngine true 0 false 3 (some "http://x.test/") (some sampleCookieArg) :=
  (cookie_thread_transparency natEngine true 0 3 (some "http://x.test/")
    (some sampleCookieArg) none false (some 0) (by decide)).1

/-- C5: every record the visitor path passes to the host visit callback
has its expires, creation and last_access fields equal to zero, whatever
time values the engine cookie holds, and ICookieVisitor::Visit passes
exactly that record to the host callback. -/
theorem cookie_visitor_times_zeroed :
    (∀ c : CefCookieRec, (ICookieVisitor.visitRecord c).expires = 0 ∧
      (ICookieVisitor.visitRecord c).creation = 0 ∧
      (ICookieVisitor.visitRecord c).last_access = 0) ∧
    (∀ (visitFn : CookieRecord → Int → Int → Bool × Bool) (c : CefCookieRec)
      (count total : Int),
      ICookieVisitor.Visit visitFn c count total =
        visitFn (ICookieVisitor.visitRecord c) count total) := by
  refine ⟨fun c => ⟨rfl, rfl, rfl⟩, fun visitFn c count total => ?_⟩
  simp [ICookieVisitor.Visit]

/-- C9: SetCookie returns false and leaves the store untouched, for any
engine whatsoever, whenever the url, the cookie, the cookie name or the
cookie value is null; in particular the underlying store call never
runs. -/
theorem set_cookie_null_rejected {S : Type} (E : CookieEngine S) (mgrPresent : Bool)
    (store : S) (onIOThread : Bool) (producedAtMs : Nat)
    (url : Option String) (cookie : Option CookieArg)
    (h : url = none ∨ cookie = none ∨ cookie.bind CookieArg.name = none ∨
      cookie.bind CookieArg.value = none) :
    ICookieManager.SetCookie E mgrPresent store onIOThread producedAtMs url cookie =
      (false, store) := by
  cases hm : mgrPresent
  · simp [ICookieManager.SetCookie]
  · rcases h with h | h | h | h
    · subst h; simp [ICookieManager.SetCookie]
    · subst h; cases url <;> simp [ICookieManager.SetCookie]
    · cases url <;> cases cookie <;> simp_all [ICookieManager.SetCookie]
    · cases url <;> cases cookie <;> simp_all [ICookieManager.SetCookie]

/-- C9: witness with a null url against the concrete engine. -/
theorem set_cookie_null_rejected_witness :
    ICookieManager.SetCookie natEngine true 0 false 0 none (some sampleCookieArg) =
      (false, 0) :=
  set_cookie_null_rejected natEngine true 0 false 0 none (some sampleCookieArg)
    (Or.inl rfl)

/-! ## Resource stream handler adapter (request.cpp)

`IResourceHandler` holds the host `RequestHandler` function table and
the `RequestHandlerFactory` that produced it; every engine call is a
direct forward to the host table, and the destructor first invokes the
per-handler destroy callback and then the factory destroy-handler
callback. -/

/-- Engine calls arriving on one IResourceHandler during its life. -/
inductive RHCall where
  | openCall
  | getResponseHeaders
  | readCall (bytes_to_read : Int)
  | skipCall (bytes_to_skip : Int)
  | cancelCall
deriving DecidableEq

/-- Host callback invocations made by the adapter. -/
inductive RHEvent where
  | hostOpen
  | hostGetResponse
  | hostRead (bytes_to_read : Int)
  | hostSkip (bytes_to_skip : Int)
  | hostCancel
  | hostDestroy
  | factoryDestroyHandler
deriving DecidableEq

/-- The host callbacks one engine call triggers: each adapter method
forwards to exactly one entry of the host function table. -/
def IResourceHandler.callEvents : RHCall → List RHEvent
  | RHCall.openCall => [RHEvent.hostOpen]
  | RHCall.getResponseHeaders => [RHEvent.hostGetResponse]
  | RHCall.readCall n => [RHEvent.hostRead n]
  | RHCall.skipCall n => [RHEvent.hostSkip n]
  | RHCall.cancelCall => [RHEvent.hostCancel]

/-- The destructor body: `_handler->destroy(_handler->context);` then
`_factory->destroy_request_handler(_handler);`. -/
def IResourceHandler.destructorEvents : List RHEvent :=
  [RHEvent.hostDestroy, RHEvent.factoryDestroyHandler]

/-- The full host-visible trace of one handler: whatever engine calls
occurred (any sequence: exhausted, cancelled, or never opened),
followed by the destructor when the engine releases the handler. -/
def IResourceHandler.lifetimeEvents (calls : List RHCall) : List RHEvent :=
  (calls.map IResourceHandler.callEvents).flatten ++ IResourceHandler.destructorEvents

/-- Helper: forwarding an engine call never triggers a destroy
callback. -/
theorem callEvents_no_destroy (c : RHCall) :
    RHEvent.hostDestroy ∉ IResourceHandler.callEvents c ∧
    RHEvent.factoryDestroyHandler ∉ IResourceHandler.callEvents c := by
  cases c <;> simp [IResourceHandler.callEvents]

/-- C6: for every possible sequence of engine calls on a
ResourceStreamHandler (exhausted, cancelled, or never opened), its
destruction trace ends with the host per-handler destroy callback
immediately followed by the factory destroy-handler callback, and each
of the two destroy callbacks occurs exactly once in the whole life of
the handler. -/
theorem resource_handler_destroy_order (calls : List RHCall) :
    IResourceHandler.lifetimeEvents calls =
      (calls.map IResourceHandler.callEvents).flatten ++
        [RHEvent.hostDestroy, RHEvent.factoryDestroyHandler] ∧
    (IResourceHandler.lifetimeEvents calls).count RHEvent.hostDestroy = 1 ∧
    (IResourceHandler.lifetimeEvents calls).count RHEvent.factoryDestroyHandler = 1 := by
  have hj : ∀ e : RHEvent,
      (e = RHEvent.hostDestroy ∨ e = RHEvent.factoryDestroyHandler) →
      e ∉ (calls.map IResourceHandler.callEvents).flatten := by
    intro e he hmem
    rcases List.mem_flatten.mp hmem with ⟨l, hl, hx⟩
    rcases List.mem_map.mp hl with ⟨c, _, rfl⟩
    rcases he with rfl | rfl
    · exact (callEvents_no_destroy c).1 hx
    · exact (callEvents_no_destroy c).2 hx
  refine ⟨rfl, ?_, ?_⟩
  · rw [IResourceHandler.lifetimeEvents, List.count_append,
      List.count_eq_zero.mpr (hj RHEvent.hostDestroy (Or.inl rfl))]
    rfl
  · rw [IResourceHandler.lifetimeEvents, List.count_append,
      List.count_eq_zero.mpr (hj RHEvent.factoryDestroyHandler (Or.inr rfl))]
    rfl

/-! ## Resource stream handler state machine (C7)

The adapter methods Open/Read/Skip forward to the host-supplied
RequestHandler function table; the host implementation of that table is
not part of the C++ layer under src. -/

/-- Modelled from the spec: the host-supplied byte source behind a
ResourceStreamHandler (the RequestHandler open/read/skip/cancel
implementations, provided by the embedding host and absent from src/)
following the 4.3 state machine: Unopened until open succeeds, read and
skip return bytes through the out-parameter cursor only once open
returned true, a false result with a zero cursor signals
end-of-stream, error, or a call before open, and cancel makes all
subsequent read/skip calls fail. -/
structure RequestHandlerState where
  opened : Bool
  cancelled : Bool
  pos : Nat
  data : List Nat
deriving DecidableEq

/-- Modelled from the spec: the host open callback succeeds (true) and
moves the stream to the Open state unless the request was cancelled. -/
def RequestHandlerState.openFn (h : RequestHandlerState) : Bool × RequestHandlerState :=
  if h.cancelled then (false, h) else (true, { h with opened := true })

/-- Modelled from the spec: the host read callback; before open or
after cancel it fails with a zero cursor, otherwise it reports through
the cursor how many bytes it materialized, false with zero meaning
end-of-stream. -/
def RequestHandlerState.readFn (h : RequestHandlerState) (size : Nat) :
    (Bool × Int) × RequestHandlerState :=
  if !h.opened || h.cancelled then ((false, 0), h)
  else
    let k := min size (h.data.length - h.pos)
    if k = 0 then ((false, 0), h)
    else ((true, Int.ofNat k), { h with pos := h.pos + k })

/-- Modelled from the spec: the host skip callback advances the cursor
without materializing bytes, with the same false/cursor contract as
read. -/
def RequestHandlerState.skipFn (h : RequestHandlerState) (size : Nat) :
    (Bool × Int) × RequestHandlerState :=
  if !h.opened || h.cancelled then ((false, 0), h)
  else
    let k := min size (h.data.length - h.pos)
    if k = 0 then ((false, 0), h)
    else ((true, Int.ofNat k), { h with pos := h.pos + k })

/-- Modelled from the spec: the host cancel callback, valid in any
state. -/
def RequestHandlerState.cancelFn (h : RequestHandlerState) : RequestHandlerState :=
  { h with cancelled := true }

/-- Adapter Open (request.cpp): forwards to the host open callback and
reports its result both as the return value and through the
handle_request out-parameter. -/
def IResourceHandler.Open (h : RequestHandlerState) :
    (Bool × Bool) × RequestHandlerState :=
  let r := h.openFn
  ((r.fst, r.fst), r.snd)

/-- Adapter Read (request.cpp): `int cursor = 0;` then the host read
callback writes the cursor; bytes_read is the cursor and the host
result is returned. -/
def IResourceHandler.Read (h : RequestHandlerState) (bytes_to_read : Nat) :
    (Bool × Int) × RequestHandlerState :=
  h.readFn bytes_to_read

/-- Adapter Skip (request.cpp), same shape as Read. -/
def IResourceHandler.Skip (h : RequestHandlerState) (bytes_to_skip : Nat) :
    (Bool × Int) × RequestHandlerState :=
  h.skipFn bytes_to_skip

/-- Adapter Cancel (request.cpp): forwards to the host cancel
callback. -/
def IResourceHandler.Cancel (h : RequestHandlerState) : RequestHandlerState :=
  h.cancelFn

/-- C7: a read or skip on a handler whose stream is not open fails with
false and a zero byte cursor and does not advance the stream; a read
can only be accepted (return true) when open has moved the stream to
the opened state; and on a non-cancelled stream Open returns true
(reporting it through handle_request as well) and marks the stream
open. -/
theorem read_requires_open (h : RequestHandlerState) (n : Nat)
    (hno : h.opened = false) :
    IResourceHandler.Read h n = ((false, 0), h) ∧
    IResourceHandler.Skip h n = ((false, 0), h) ∧
    (∀ (h2 : RequestHandlerState) (n2 : Nat) (kk : Int) (h2f : RequestHandlerState),
      IResourceHandler.Read h2 n2 = ((true, kk), h2f) → h2.opened = true) ∧
    (∀ h2 : RequestHandlerState, h2.cancelled = false →
      (IResourceHandler.Open h2).fst = (true, true) ∧
      (IResourceHandler.Open h2).snd.opened = true) := by
  refine ⟨?_, ?_, ?_, ?_⟩
  · simp [IResourceHandler.Read, RequestHandlerState.readFn, hno]
  · simp [IResourceHandler.Skip, RequestHandlerState.skipFn, hno]
  · intro h2 n2 kk h2f heq
    by_cases ho : h2.opened = true
    · exact ho
    · exfalso
      simp only [Bool.not_eq_true] at ho
      simp [IResourceHandler.Read, RequestHandlerState.readFn, ho] at heq
  · intro h2 hc
    constructor <;> simp [IResourceHandler.Open, RequestHandlerState.openFn, hc]

/-- C7: witness on a concrete unopened handler with data present. -/
theorem read_requires_open_witness :
    IResourceHandler.Read { opened := false, cancelled := false, pos := 0, data := [1, 2, 3] } 2 =
      ((false, 0), { opened := false, cancelled := false, pos := 0, data := [1, 2, 3] }) :=
  (read_requires_open
    { opened := false, cancelled := false, pos := 0, data := [1, 2, 3] } 2 rfl).1

/-! ## Render-process message transport (subprocess.cpp)

`MessageReceiver` backs the injected `on` primitive: Execute captures
the current V8 context and the callback argument; Recv invokes the
captured callback inside the captured context, and silently drops the
message when nothing is captured. -/

/-- A V8 argument as inspected by the transport primitives. -/
inductive V8Arg where
  | str (s : String)
  | func (f : Nat)
  | other
deriving DecidableEq

/-- Script-side effects of delivering one message. -/
inductive RecvEvent where
  | enterContext (c : Nat)
  | invokeCallback (f : Nat) (message : String)
  | exitContext (c : Nat)
deriving DecidableEq

/-- The receiver state: the captured script execution context and the
captured callback, both absent until the on primitive is called. -/
structure MessageReceiver where
  ctx : Option Nat
  callback : Option Nat
deriving DecidableEq

/-- MessageReceiver::Execute (the `on` registration): exactly one
function argument captures the current context and callback,
overwriting any previous registration; anything else returns false and
leaves the state alone. -/
def MessageReceiver.Execute (r : MessageReceiver) (currentContext : Nat)
    (arguments : List V8Arg) : Bool × MessageReceiver :=
  match arguments with
  | [V8Arg.func f] => (true, { ctx := some currentContext, callback := some f })
  | _ => (false, r)

/-- MessageReceiver::Recv: with both a captured context and callback it
enters the context, invokes the callback with the message, and exits;
otherwise the message is dropped with no effect. -/
def MessageReceiver.Recv (r : MessageReceiver) (message : String) : List RecvEvent :=
  match r.ctx, r.callback with
  | some c, some f =>
      [RecvEvent.enterContext c, RecvEvent.invokeCallback f message, RecvEvent.exitContext c]
  | _, _ => []

/-- One render-process transport operation: an arriving cross-process
message, or a script call of the on primitive. -/
inductive TransportOp where
  | recvMsg (message : String)
  | registerOn (currentContext : Nat) (arguments : List V8Arg)
deriving DecidableEq

/-- Running a sequence of transport operations from a receiver state,
collecting the script-side delivery events. -/
def MessageReceiver.runOps (r : MessageReceiver) :
    List TransportOp → MessageReceiver × List RecvEvent
  | [] => (r, [])
  | TransportOp.recvMsg m :: rest =>
      let ev := r.Recv m
      let next := MessageReceiver.runOps r rest
      (next.fst, ev ++ next.snd)
  | TransportOp.registerOn c args :: rest =>
      let r2 := (r.Execute c args).snd
      let next := MessageReceiver.runOps r2 rest
      (next.fst, next.snd)

/-- C8: a message received before the on primitive captured a callback
and context is dropped with no effect: the receive path emits nothing
when either capture is absent, so prefixing any operation sequence of a
fresh receiver with such a message changes nothing (registering later
does not retroactively deliver it); and a successful registration
captures the current context and callback, overwriting any previous
registration, without delivering anything by itself. -/
theorem message_recv_drop_no_queue :
    (∀ (r : MessageReceiver) (m : String),
      r.ctx = none ∨ r.callback = none → r.Recv m = []) ∧
    (∀ (r : MessageReceiver) (c f : Nat),
      r.Execute c [V8Arg.func f] = (true, { ctx := some c, callback := some f })) ∧
    (∀ (m : String) (rest : List TransportOp),
      MessageReceiver.runOps { ctx := none, callback := none }
          (TransportOp.recvMsg m :: rest) =
        MessageReceiver.runOps { ctx := none, callback := none } rest) := by
  refine ⟨?_, ?_, ?_⟩
  · intro r m h
    rcases h with h | h <;> simp [MessageReceiver.Recv, h]
  · intro r c f
    simp [MessageReceiver.Execute]
  · intro m rest
    simp [MessageReceiver.runOps, MessageReceiver.Recv]

/-- C8: witness replaying the no-queue property on a concrete trace:
the early message leaves no trace and only the post-registration
message is delivered. -/
theorem message_recv_drop_no_queue_witness :
    MessageReceiver.runOps { ctx := none, callback := none }
        [TransportOp.recvMsg "early", TransportOp.registerOn 7 [V8Arg.func 3],
          TransportOp.recvMsg "late"] =
      MessageReceiver.runOps { ctx := none, callback := none }
        [TransportOp.registerOn 7 [V8Arg.func 3], TransportOp.recvMsg "late"] :=
  message_recv_drop_no_queue.2.2 "early"
    [TransportOp.registerOn 7 [V8Arg.func 3], TransportOp.recvMsg "late"]

/-! ## Off-screen renderer (IWebViewRender in the split-handler
variant)

The render handler caches the view rectangle, the popup rectangle (fed
by OnPopupSize) and the texture rectangle recomputed on each paint. -/

/-- PaintElementType: main view or popup overlay. -/
inductive PaintElementType where
  | PET_VIEW
  | PET_POPUP
deriving DecidableEq

/-- Host frame delivery with the computed texture rectangle. -/
inductive RenderEvent where
  | onFrame (buffer : Option Nat) (texture : Rect)
deriving DecidableEq

/-- IWebViewRender state: cached view, popup and texture rectangles and
the device scale factor. -/
structure RenderSt where
  view_rect : Rect
  popup_rect : Rect
  texture_rect : Rect
  device_scale_factor : Int
deriving DecidableEq

/-- IWebViewRender::OnPaint: a null buffer returns immediately;
otherwise the texture rectangle is recomputed (popup paints use the
first dirty rectangle and the cached popup offset) and the frame is
delivered to the host. -/
def IWebViewRender.OnPaint (s : RenderSt) (ptype : PaintElementType)
    (dirtyRects : List Rect) (buffer : Option Nat) (width height : Int) :
    RenderSt × List RenderEvent :=
  match buffer with
  | none => (s, [])
  | some _ =>
    let is_popup : Bool := ptype = PaintElementType.PET_POPUP
    let first_rect := dirtyRects.headD { x := 0, y := 0, width := 0, height := 0 }
    let tr : Rect :=
      { x := if is_popup then s.popup_rect.x else 0,
        y := if is_popup then s.popup_rect.y else 0,
        width := if is_popup then first_rect.width else width,
        height := if is_popup then first_rect.height else height }
    ({ s with texture_rect := tr }, [RenderEvent.onFrame buffer tr])

/-- IWebViewRender::OnPopupSize caches the popup rectangle. -/
def IWebViewRender.OnPopupSize (s : RenderSt) (r : Rect) : RenderSt :=
  { s with popup_rect := r }

/-- IWebViewRender::Resize updates the cached view rectangle
dimensions. -/
def IWebViewRender.Resize (s : RenderSt) (width height : Int) : RenderSt :=
  { s with view_rect := { s.view_rect with width := width, height := height } }

/-- C10: a paint event with a null pixel buffer returns immediately in
both renderer variants: no host on_frame callback is invoked and the
state, in particular the cached texture rectangle, is untouched; and
every on_frame event either variant ever emits carries a non-null
buffer. -/
theorem paint_null_buffer_noop
    (s : RenderSt) (s2 : WebViewSt) (ptype : PaintElementType)
    (dirtyRects : List Rect) (buffer : Option Nat) (width height : Int) :
    IWebViewRender.OnPaint s ptype dirtyRects none width height = (s, []) ∧
    IWebView.OnPaint s2 none width height = (s2, []) ∧
    (∀ b r, RenderEvent.onFrame b r ∈
        (IWebViewRender.OnPaint s ptype dirtyRects buffer width height).snd →
      b ≠ none) ∧
    (∀ b w h, WVEvent.onFrame b w h ∈ (IWebView.OnPaint s2 buffer width height).snd →
      b ≠ none) := by
  refine ⟨rfl, ?_, ?_, ?_⟩
  · by_cases hr : s2.is_running <;> simp [IWebView.OnPaint, hr]
  · intro b r hmem
    cases buffer with
    | none => simp [IWebViewRender.OnPaint] at hmem
    | some v =>
        simp [IWebViewRender.OnPaint] at hmem
        simp [hmem.1]
  · intro b w h hmem
    cases buffer with
    | none =>
        by_cases hr : s2.is_running <;> simp [IWebView.OnPaint, hr] at hmem
    | some v =>
        by_cases hr : s2.is_running <;> simp [IWebView.OnPaint, hr] at hmem
        simp [hmem.1]

/-- C10: witness at concrete states: null-buffer paints are no-ops and
a concrete non-null paint calls the host with that buffer. -/
theorem paint_null_buffer_noop_witness :
    IWebViewRender.OnPaint
        { view_rect := { x := 0, y := 0, width := 800, height := 600 },
          popup_rect := { x := 0, y := 0, width := 0, height := 0 },
          texture_rect := { x := 0, y := 0, width := 0, height := 0 },
          device_scale_factor := 1 }
        PaintElementType.PET_VIEW [] none 800 600 =
      ({ view_rect := { x := 0, y := 0, width := 800, height := 600 },
          popup_rect := { x := 0, y := 0, width := 0, height := 0 },
          texture_rect := { x := 0, y := 0, width := 0, height := 0 },
          device_scale_factor := 1 }, []) ∧
    IWebView.OnPaint runningSample none 800 600 = (runningSample, []) :=
  ⟨(paint_null_buffer_noop
      { view_rect := { x := 0, y := 0, width := 800, height := 600 },
        popup_rect := { x := 0, y := 0, width := 0, height := 0 },
        texture_rect := { x := 0, y := 0, width := 0, height := 0 },
        device_scale_factor := 1 }
      runningSample PaintElementType.PET_VIEW [] none 800 600).1,
    (paint_null_buffer_noop
      { view_rect := { x := 0, y := 0, width := 800, height := 600 },
        popup_rect := { x := 0, y := 0, width := 0, height := 0 },
        texture_rect := { x := 0, y := 0, width := 0, height := 0 },
        device_scale_factor := 1 }
      runningSample PaintElementType.PET_VIEW [] none 800 600).2.1⟩
